import Mathlib

/-!
Verification of the ComfyUI-Video-FPS-Chunker persistence core.

Shallow embedding of the shared persistence mechanism of the repository:
the JSON-backed key/value stores (ImageDatabase in load_image_batch.py,
ProcessedVideosDB in check_video_processed.py), the content-addressed
idempotency cache with liveness verification (CheckVideoProcessed.execute
and VideoFPSChunker.execute), the durable round-robin cursor
(LoadImageBatch.BatchImageLoader, textually identical to
LoadVideoBatch.BatchVideoLoader in load_video_batch.py), and the streamed
SHA-256 fingerprint (VideoFPSChunker.calculate_video_hash).

Python dicts are modelled as association lists with overwrite-on-insert
semantics; the filesystem is modelled as a function from paths to nodes;
machine-width arithmetic inside SHA-256 is Nat with explicit reduction
modulo 2 ^ 32.
-/

/-- Association-list update with Python dict semantics: `d[k] = v`
overwrites any previous binding of `k` and leaves other keys intact. -/
def alSet {α : Type} (l : List (String × α)) (k : String) (v : α) :
    List (String × α) :=
  (k, v) :: l.filter (fun p => p.1 != k)

/-- Association-list deletion, Python `del d[k]`. -/
def eraseKey {α : Type} (l : List (String × α)) (k : String) :
    List (String × α) :=
  l.filter (fun p => p.1 != k)

/-- Tests whether the first character list is an initial segment of the
second. -/
def charsLeadWith : List Char → List Char → Bool
  | [], _ => true
  | _ :: _, [] => false
  | a :: as, b :: bs => a == b && charsLeadWith as bs

/-- Python str.endswith, via reversed character lists. -/
def strEndsWith (s suffixStr : String) : Bool :=
  charsLeadWith suffixStr.toList.reverse s.toList.reverse

/-- A filesystem node as seen by the liveness checks: a path is missing,
is a plain file, or is a directory with a list of entry names
(the result of os.listdir). -/
inductive FsNode where
  | missing : FsNode
  | file : FsNode
  | dir (entries : List String) : FsNode
deriving DecidableEq

/-- os.path.exists. -/
def pathExistsB (fs : String → FsNode) (p : String) : Bool :=
  match fs p with
  | FsNode.missing => false
  | _ => true

/-- os.path.isdir. -/
def isDirB (fs : String → FsNode) (p : String) : Bool :=
  match fs p with
  | FsNode.dir _ => true
  | _ => false

/-- os.listdir, only ever consulted on directories by the source. -/
def listdir (fs : String → FsNode) (p : String) : List String :=
  match fs p with
  | FsNode.dir es => es
  | _ => []

/-- The artifact filter of check_video_processed.py line 114:
`[f for f in os.listdir(chunk_dir) if f.endswith(".mp4")]`. -/
def listMp4 (entries : List String) : List String :=
  entries.filter (fun f => strEndsWith f ".mp4")

/-- The liveness condition of CheckVideoProcessed.execute lines 112-115:
the recorded path exists, is a directory, and holds at least one
artifact file by extension filter. -/
def isLive (fs : String → FsNode) (p : String) : Bool :=
  pathExistsB fs p && isDirB fs p && !(listMp4 (listdir fs p)).isEmpty

/-- ProcessedVideosDB of check_video_processed.py: `data` is the
in-memory dict mapping video hash to chunk directory, `disk` is the
JSON document last written by `save` (write-through on success). -/
structure ProcessedVideosDB where
  data : List (String × String)
  disk : List (String × String)
deriving DecidableEq

/-- ProcessedVideosDB.is_processed: `video_hash in self.data`. -/
def is_processed (db : ProcessedVideosDB) (video_hash : String) : Bool :=
  (db.data.lookup video_hash).isSome

/-- ProcessedVideosDB.get_chunk_dir: `self.data.get(video_hash)`. -/
def get_chunk_dir (db : ProcessedVideosDB) (video_hash : String) :
    Option String :=
  db.data.lookup video_hash

/-- ProcessedVideosDB.mark_processed: set the mapping, then save
(persisting the whole state). -/
def mark_processed (db : ProcessedVideosDB) (video_hash chunk_dir : String) :
    ProcessedVideosDB :=
  let d := alSet db.data video_hash chunk_dir
  { data := d, disk := d }

/-- Outcome of the cache resolution performed by
CheckVideoProcessed.execute. -/
inductive Resolution where
  | NotProcessed : Resolution
  | Processed (chunk_dir : String) (count : Nat) : Resolution
deriving DecidableEq

/-- CheckVideoProcessed.execute lines 108-132, from the point where the
fingerprint is known: consult the store, validate liveness of the
recorded chunk directory, self-heal (delete the entry and save) when the
entry is stale.  Returns the store after the call together with the
resolution outcome. -/
def resolve (fs : String → FsNode) (db : ProcessedVideosDB)
    (video_hash : String) : ProcessedVideosDB × Resolution :=
  if is_processed db video_hash then
    match get_chunk_dir db video_hash with
    | none => (db, Resolution.NotProcessed)
    | some chunk_dir =>
      if pathExistsB fs chunk_dir && isDirB fs chunk_dir then
        let chunks := listMp4 (listdir fs chunk_dir)
        if 0 < chunks.length then
          (db, Resolution.Processed chunk_dir chunks.length)
        else
          if (db.data.lookup video_hash).isSome then
            let d := eraseKey db.data video_hash
            ({ data := d, disk := d }, Resolution.NotProcessed)
          else (db, Resolution.NotProcessed)
      else
        if (db.data.lookup video_hash).isSome then
          let d := eraseKey db.data video_hash
          ({ data := d, disk := d }, Resolution.NotProcessed)
        else (db, Resolution.NotProcessed)
  else
    (db, Resolution.NotProcessed)

/-- JSON values as loaded by json.load: exactly what a valid JSON
backing file can contain. -/
inductive Json where
  | jnull : Json
  | jbool (b : Bool) : Json
  | jnum (n : Int) : Json
  | jstr (s : String) : Json
  | jarr (elems : List Json) : Json
  | jobj (fields : List (String × Json)) : Json

/-- Tests whether the first character list occurs contiguously inside
the second (Python substring membership). -/
def charsContain (sub : List Char) : List Char → Bool
  | [] => charsLeadWith sub []
  | c :: rest => charsLeadWith sub (c :: rest) || charsContain sub rest

/-- Python membership test `needle in data` for a string needle against
an arbitrary loaded JSON value: key membership for dicts, element
equality for lists (a string equals only an equal string), substring
test for strings, TypeError otherwise. -/
def pyContains (data : Json) (needle : String) : Except String Bool :=
  match data with
  | Json.jobj kvs => Except.ok (kvs.any (fun p => p.1 == needle))
  | Json.jarr es =>
      Except.ok (es.any (fun e =>
        match e with
        | Json.jstr s => s == needle
        | _ => false))
  | Json.jstr s => Except.ok (charsContain needle.toList s.toList)
  | _ => Except.error "TypeError"

/-- Python subscript `data[key]` with a string key: dict lookup
(KeyError when absent), TypeError on any non-dict value. -/
def pySubscript (data : Json) (key : String) : Except String Json :=
  match data with
  | Json.jobj kvs =>
      match kvs.lookup key with
      | some v => Except.ok v
      | none => Except.error "KeyError"
  | _ => Except.error "TypeError"

/-- ImageDatabase.get of load_image_batch.py lines 44-48 run against an
arbitrary loaded JSON document:
`if category not in self.data: return default` followed by
`return self.data[category].get(key, default)`; the trailing `.get`
raises AttributeError when the namespace value is not a dict. -/
def ImageDatabase_get (data : Json) (category key : String)
    (default : Json) : Except String Json :=
  match pyContains data category with
  | Except.error e => Except.error e
  | Except.ok false => Except.ok default
  | Except.ok true =>
    match pySubscript data category with
    | Except.error e => Except.error e
    | Except.ok v =>
      match v with
      | Json.jobj kvs => Except.ok ((kvs.lookup key).getD default)
      | _ => Except.error "AttributeError"

/-- The value that `ImageDatabase.get(data, category, key, default)`
ought to return on a well-formed document: the stored value when the
namespace holds a dict binding the key, the default otherwise.  Stated
from the words of the spec for comparison with the source embedding. -/
def storedOrDefault (nss : List (String × Json)) (category key : String)
    (default : Json) : Json :=
  match nss.lookup category with
  | some (Json.jobj kvs) => (kvs.lookup key).getD default
  | _ => default

/-- Decidable well-formedness of a loaded document: every namespace
value is itself a JSON object.  Every document the store writes has
this shape. -/
def wellFormedDoc (nss : List (String × Json)) : Bool :=
  nss.all (fun p =>
    match p.2 with
    | Json.jobj _ => true
    | _ => false)

/-- In-memory state of an ImageDatabase whose document is well formed
(each namespace maps keys to values), together with the document last
persisted by `save`.  All writes the store itself performs keep this
shape. -/
structure ImageDatabaseState where
  data : List (String × List (String × Json))
  disk : List (String × List (String × Json))

/-- ImageDatabase.save, lines 35-42: writes the whole in-memory document
to disk; any exception is caught and logged, leaving the previous disk
content in place and raising nothing.  The `writeOk` flag models whether
the underlying file write succeeds. -/
def ImageDatabase_save (writeOk : Bool) (s : ImageDatabaseState) :
    ImageDatabaseState :=
  if writeOk then { s with disk := s.data } else s

/-- ImageDatabase.insert, lines 50-55: create the namespace dict when
absent, bind the key, then save. -/
def ImageDatabase_insert (writeOk : Bool) (s : ImageDatabaseState)
    (category key : String) (value : Json) : ImageDatabaseState :=
  let cat := (s.data.lookup category).getD []
  ImageDatabase_save writeOk
    { s with data := alSet s.data category (alSet cat key value) }

/-- View of a well-formed document as the JSON value json.load would
produce for it. -/
def dbToJson (data : List (String × List (String × Json))) : Json :=
  Json.jobj (data.map (fun p => (p.1, Json.jobj p.2)))

/-- The three parallel namespaces of the cursor store of
load_image_batch.py (and, textually identically, load_video_batch.py):
`Batch Counters`, `Batch Paths` and `Batch Patterns` of the shared
ImageDatabase, each keyed by the batch label.  Every `insert` persists
immediately, so after each mutation this value is also the on-disk
document. -/
structure CursorStore where
  counters : List (String × Nat)
  paths : List (String × String)
  patterns : List (String × String)
deriving DecidableEq

/-- The loader object built by LoadImageBatch.execute: the sorted,
filtered file list produced by the excluded directory-scanning layer
(load_images plus sort), the cursor position, and the batch label. -/
structure BatchImageLoader where
  image_paths : List String
  index : Nat
  label : String
deriving DecidableEq

/-- BatchImageLoader.__init__, lines 157-178, after the scan: compare
the stored identity with the requested one; on any difference reset the
counter to 0 and record the new identity through three `insert` calls,
each of which persists the whole store; otherwise load the stored
counter (default 0).  The returned list is the sequence of persisted
snapshots produced by the call, in order. -/
def loaderInit (db : CursorStore) (directory_path label pattern : String)
    (image_paths : List String) :
    CursorStore × BatchImageLoader × List CursorStore :=
  let stored_directory_path := db.paths.lookup label
  let stored_pattern := db.patterns.lookup label
  if stored_directory_path = some directory_path ∧
      stored_pattern = some pattern then
    (db, { image_paths := image_paths,
           index := (db.counters.lookup label).getD 0,
           label := label }, [])
  else
    let db1 := { db with counters := alSet db.counters label 0 }
    let db2 := { db1 with paths := alSet db1.paths label directory_path }
    let db3 := { db2 with patterns := alSet db2.patterns label pattern }
    (db3, { image_paths := image_paths, index := 0, label := label },
     [db1, db2, db3])

/-- os.path.basename for the forward-slash paths used here. -/
def basename (s : String) : String :=
  (s.splitOn "/").getLastD s

/-- BatchImageLoader.get_next_image, lines 198-214: wrap the position
when it is out of range, serve the file at the position, advance with
wraparound, persist the new counter.  Returns none exactly when the
Python list indexing would raise (empty list), which the caller guards
against. -/
def getNextImage (db : CursorStore) (L : BatchImageLoader) :
    Option (CursorStore × BatchImageLoader × String × String) :=
  let n := L.image_paths.length
  let i0 := if n ≤ L.index then 0 else L.index
  match L.image_paths.get? i0 with
  | none => none
  | some image_path =>
    let i1 := i0 + 1
    let i2 := if n ≤ i1 then 0 else i1
    let db2 := { db with counters := alSet db.counters L.label i2 }
    some (db2, { L with index := i2 }, image_path, basename image_path)

/-- LoadImageBatch.execute, lines 127-154: path-existence guard, loader
construction (which may mutate and persist the store), empty-sequence
guard, retrieval of the next image, and reconstruction of the served
index from the post-increment position.  The image decoding itself is
excluded; the output carries the file path, the filename, the served
index and the total count.  The store after the call is returned in
both the success and the error case, since the Python store is a module
global mutated in place. -/
def LoadImageBatch_execute (path_exists : Bool) (image_paths : List String)
    (db : CursorStore) (path pattern label : String) :
    CursorStore × Except String (String × String × Nat × Nat) :=
  if !path_exists then
    (db, Except.error ("Path does not exist: " ++ path))
  else
    let r := loaderInit db path label pattern image_paths
    let db1 := r.1
    let L := r.2.1
    if L.image_paths.length = 0 then
      (db1, Except.error
        ("No images found in " ++ path ++ " with pattern " ++ pattern))
    else
      match getNextImage db1 L with
      | none => (db1, Except.error "No valid image found")
      | some (db2, L2, image_path, filename) =>
        let current_index :=
          if L2.index = 0 then L.image_paths.length - 1 else L2.index - 1
        (db2, Except.ok
          (image_path, filename, current_index, L.image_paths.length))

/-- One next-index invocation as the node performs it, keeping only the
served index: some index on success, none when the call errors. -/
def callOnce (db : CursorStore) (label directory_path pattern : String)
    (image_paths : List String) : CursorStore × Option Nat :=
  match LoadImageBatch_execute true image_paths db directory_path pattern
      label with
  | (db2, Except.ok out) => (db2, some out.2.2.1)
  | (db2, Except.error _) => (db2, none)

/-- The indices served by k consecutive invocations with a fixed
identity, threading the persisted store between calls. -/
def callTrace (db : CursorStore) (label directory_path pattern : String)
    (image_paths : List String) : Nat → List (Option Nat)
  | 0 => []
  | Nat.succ k =>
    (callOnce db label directory_path pattern image_paths).2 ::
      callTrace (callOnce db label directory_path pattern image_paths).1
        label directory_path pattern image_paths k

/-- The index the next invocation will serve, read off the store: 0 when
the identity differs from the stored one, otherwise the stored counter
clamped to 0 when it is out of range. -/
def startIndex (db : CursorStore) (label directory_path pattern : String)
    (n : Nat) : Nat :=
  if db.paths.lookup label = some directory_path ∧
      db.patterns.lookup label = some pattern then
    let c := (db.counters.lookup label).getD 0
    if n ≤ c then 0 else c
  else 0

/-- Fuel-driven worker for chunkBy; the fuel is an upper bound on the
list length, so the fuel-exhausted branch is never reached from
chunkBy. -/
def chunkByFuel {α : Type} (szPred : Nat) : Nat → List α → List (List α)
  | _, [] => []
  | 0, x :: xs => [x :: xs]
  | Nat.succ fuel, x :: xs =>
    (x :: xs).take (szPred + 1) :: chunkByFuel szPred fuel (xs.drop szPred)

/-- Splits a list into consecutive pieces of szPred + 1 elements each
(the last piece may be shorter).  Used with szPred = 4095 for the
4096-byte read loop of calculate_video_hash and with szPred = 63 for
the 64-byte blocks of SHA-256. -/
def chunkBy {α : Type} (szPred : Nat) (l : List α) : List (List α) :=
  chunkByFuel szPred l.length l

/-- Right rotation of a 32-bit word held as a Nat below 2 ^ 32. -/
def ror32 (x n : Nat) : Nat :=
  ((x >>> n) ||| (x <<< (32 - n))) % 2 ^ 32

/-- Bitwise complement of a 32-bit word. -/
def not32 (x : Nat) : Nat := x ^^^ (2 ^ 32 - 1)

/-- SHA-256 small sigma 0, used in the message schedule. -/
def schedSigmaA (x : Nat) : Nat := ror32 x 7 ^^^ ror32 x 18 ^^^ (x >>> 3)

/-- SHA-256 small sigma 1, used in the message schedule. -/
def schedSigmaB (x : Nat) : Nat := ror32 x 17 ^^^ ror32 x 19 ^^^ (x >>> 10)

/-- SHA-256 big sigma 0, used in the round function. -/
def roundSigmaA (x : Nat) : Nat := ror32 x 2 ^^^ ror32 x 13 ^^^ ror32 x 22

/-- SHA-256 big sigma 1, used in the round function. -/
def roundSigmaB (x : Nat) : Nat := ror32 x 6 ^^^ ror32 x 11 ^^^ ror32 x 25

/-- The 64 SHA-256 round constants. -/
def sha256K : List Nat :=
  [1116352408, 1899447441, 3049323471, 3921009573,
   961987163, 1508970993, 2453635748, 2870763221,
   3624381080, 310598401, 607225278, 1426881987,
   1925078388, 2162078206, 2614888103, 3248222580,
   3835390401, 4022224774, 264347078, 604807628,
   770255983, 1249150122, 1555081692, 1996064986,
   2554220882, 2821834349, 2952996808, 3210313671,
   3336571891, 3584528711, 113926993, 338241895,
   666307205, 773529912, 1294757372, 1396182291,
   1695183700, 1986661051, 2177026350, 2456956037,
   2730485921, 2820302411, 3259730800, 3345764771,
   3516065817, 3600352804, 4094571909, 275423344,
   430227734, 506948616, 659060556, 883997877,
   958139571, 1322822218, 1537002063, 1747873779,
   1955562222, 2024104815, 2227730452, 2361852424,
   2428436474, 2756734187, 3204031479, 3329325298]

/-- The SHA-256 initial hash value. -/
def sha256H0 : List Nat :=
  [1779033703, 3144134277, 1013904242, 2773480762,
   1359893119, 2600822924, 528734635, 1541459225]

/-- The eight working variables of the SHA-256 compression loop. -/
structure Hash8 where
  a : Nat
  b : Nat
  c : Nat
  d : Nat
  e : Nat
  f : Nat
  g : Nat
  h : Nat

/-- One SHA-256 round. -/
def sha256Round (s : Hash8) (k wi : Nat) : Hash8 :=
  let t1 := (s.h + roundSigmaB s.e + ((s.e &&& s.f) ^^^ (not32 s.e &&& s.g))
    + k + wi) % 2 ^ 32
  let t2 := (roundSigmaA s.a
    + ((s.a &&& s.b) ^^^ (s.a &&& s.c) ^^^ (s.b &&& s.c))) % 2 ^ 32
  { a := (t1 + t2) % 2 ^ 32, b := s.a, c := s.b, d := s.c,
    e := (s.d + t1) % 2 ^ 32, f := s.e, g := s.f, h := s.g }

/-- Big-endian 32-bit word at byte offset off of a block. -/
def beWord (block : List Nat) (off : Nat) : Nat :=
  block.getD off 0 * 2 ^ 24 + block.getD (off + 1) 0 * 2 ^ 16 +
    block.getD (off + 2) 0 * 2 ^ 8 + block.getD (off + 3) 0

/-- The 64-entry message schedule of one 64-byte block. -/
def sha256Schedule (block : List Nat) : List Nat :=
  let w16 := (List.range 16).map (fun i => beWord block (4 * i))
  (List.range 48).foldl (fun w _ =>
    let j := w.length
    w ++ [(w.getD (j - 16) 0 + schedSigmaA (w.getD (j - 15) 0) +
      w.getD (j - 7) 0 + schedSigmaB (w.getD (j - 2) 0)) % 2 ^ 32]) w16

/-- SHA-256 compression of one 64-byte block into the running hash. -/
def sha256Compress (H : List Nat) (block : List Nat) : List Nat :=
  let w := sha256Schedule block
  let s0 : Hash8 :=
    { a := H.getD 0 0, b := H.getD 1 0, c := H.getD 2 0, d := H.getD 3 0,
      e := H.getD 4 0, f := H.getD 5 0, g := H.getD 6 0, h := H.getD 7 0 }
  let s := (List.range 64).foldl
    (fun s i => sha256Round s (sha256K.getD i 0) (w.getD i 0)) s0
  [(H.getD 0 0 + s.a) % 2 ^ 32, (H.getD 1 0 + s.b) % 2 ^ 32,
   (H.getD 2 0 + s.c) % 2 ^ 32, (H.getD 3 0 + s.d) % 2 ^ 32,
   (H.getD 4 0 + s.e) % 2 ^ 32, (H.getD 5 0 + s.f) % 2 ^ 32,
   (H.getD 6 0 + s.g) % 2 ^ 32, (H.getD 7 0 + s.h) % 2 ^ 32]

/-- Big-endian byte expansion of x into numBytes bytes. -/
def beBytes (numBytes x : Nat) : List Nat :=
  (List.range numBytes).map (fun i => (x >>> (8 * (numBytes - 1 - i))) % 256)

/-- SHA-256 padding: a 0x80 byte, zeros up to 56 mod 64, then the bit
length as eight big-endian bytes. -/
def sha256Pad (msg : List Nat) : List Nat :=
  let len := msg.length
  let z := (120 - (len + 1) % 64) % 64
  msg ++ [0x80] ++ List.replicate z 0 ++ beBytes 8 (len * 8)

/-- One hex digit. -/
def hexDigit (n : Nat) : Char :=
  "0123456789abcdef".toList.getD n (Char.ofNat 48)

/-- Lowercase hexadecimal rendering of a 32-bit word, 8 digits. -/
def toHex8 (x : Nat) : String :=
  ((List.range 8).map (fun i => hexDigit ((x >>> (4 * (7 - i))) % 16))).asString

/-- SHA-256 of a byte sequence, rendered as the 64-character lowercase
hex digest that hashlib hexdigest returns. -/
def sha256hex (msg : List Nat) : String :=
  let blocks := chunkBy 63 (sha256Pad msg)
  let H := blocks.foldl sha256Compress sha256H0
  (H.map toHex8).foldl (fun acc w => acc ++ w) ""

/-- The observable state of a hashlib sha256 object: the concatenation
of all bytes fed so far.  The documented hashlib contract is that
update(a) followed by update(b) is equivalent to update(a ++ b), so the
digest is a function of this concatenation alone. -/
def hashlibSha256Update (state block : List Nat) : List Nat :=
  state ++ block

/-- hexdigest of a hashlib sha256 object. -/
def hashlibSha256Hexdigest (state : List Nat) : String :=
  sha256hex state

/-- VideoFPSChunker.calculate_video_hash, lines 70-77 (the identical
loop appears in CheckVideoProcessed.execute lines 101-105): stream the
file content in 4096-byte reads through a sha256 object and keep the
first 16 hex characters of the digest. -/
def calculate_video_hash (content : List Nat) : String :=
  (hashlibSha256Hexdigest
    ((chunkBy 4095 content).foldl hashlibSha256Update [])).take 16

/-- The fingerprint as the spec words it: the first 16 hex characters
of the SHA-256 digest of the whole byte content. -/
def specFingerprint (content : List Nat) : String :=
  (sha256hex content).take 16

/-! ### Association-list lemmas -/

theorem alSet_lookup_self {α : Type} (l : List (String × α)) (k : String)
    (v : α) : (alSet l k v).lookup k = some v := by
  simp [alSet, List.lookup]

theorem lookup_filterNe {α : Type} (l : List (String × α)) (k k2 : String)
    (h : k2 ≠ k) :
    (l.filter (fun p => p.1 != k)).lookup k2 = l.lookup k2 := by
  induction l with
  | nil => rfl
  | cons p t ih =>
    obtain ⟨a, b⟩ := p
    by_cases hak : a = k
    · subst hak
      have hne : (k2 == a) = false := by
        simp only [beq_eq_false_iff_ne, ne_eq]
        exact h
      simp [List.filter_cons, List.lookup, hne, ih]
    · have : (a != k) = true := by
        simp only [bne_iff_ne, ne_eq]
        exact hak
      simp [List.filter_cons, this, List.lookup, ih]

theorem alSet_lookup_ne {α : Type} (l : List (String × α)) (k k2 : String)
    (v : α) (h : k2 ≠ k) : (alSet l k v).lookup k2 = l.lookup k2 := by
  have hne : (k2 == k) = false := by
    simp only [beq_eq_false_iff_ne, ne_eq]
    exact h
  simp [alSet, List.lookup, hne, lookup_filterNe l k k2 h]

theorem eraseKey_lookup_self {α : Type} (l : List (String × α))
    (k : String) : (eraseKey l k).lookup k = none := by
  induction l with
  | nil => rfl
  | cons p t ih =>
    obtain ⟨a, b⟩ := p
    by_cases hak : a = k
    · subst hak
      simp [eraseKey, List.filter_cons] at ih ⊢
      exact ih
    · have h1 : (a != k) = true := by
        simp only [bne_iff_ne, ne_eq]
        exact hak
      have h2 : (k == a) = false := by
        simp only [beq_eq_false_iff_ne, ne_eq]
        exact fun hh => hak hh.symm
      simp [eraseKey, List.filter_cons, h1, List.lookup, h2] at ih ⊢
      exact ih

/-! ### Claims C1 and C2: the content-addressed cache -/

/-- C1: after mark_processed(f, p), if p fails the liveness check
(missing, not a directory, or holding zero artifact files), resolve(f)
removes the entry from the in-memory store, persists the removal to
disk, returns NotProcessed, and a subsequent is_processed(f) is
false. -/
theorem resolve_self_heals_stale (db : ProcessedVideosDB)
    (fs : String → FsNode) (f p : String) (hstale : isLive fs p = false) :
    (resolve fs (mark_processed db f p) f).2 = Resolution.NotProcessed ∧
    (resolve fs (mark_processed db f p) f).1.data.lookup f = none ∧
    (resolve fs (mark_processed db f p) f).1.disk.lookup f = none ∧
    is_processed (resolve fs (mark_processed db f p) f).1 f = false := by
  have hl : (mark_processed db f p).data.lookup f = some p := by
    simp [mark_processed, alSet_lookup_self]
  have hip : is_processed (mark_processed db f p) f = true := by
    simp [is_processed, hl]
  have herase :
      (eraseKey (mark_processed db f p).data f).lookup f = none :=
    eraseKey_lookup_self _ f
  by_cases hed : (pathExistsB fs p && isDirB fs p) = true
  · have hz : (listMp4 (listdir fs p)).isEmpty = true := by
      simp only [isLive, hed, Bool.true_and, Bool.not_eq_false'] at hstale
      exact hstale
    have hz2 : ¬ 0 < (listMp4 (listdir fs p)).length := by
      rw [List.isEmpty_iff_length_eq_zero] at hz
      omega
    simp [resolve, hip, get_chunk_dir, hl, hed, hz2, is_processed, herase]
  · simp [resolve, hip, get_chunk_dir, hl, hed, is_processed, herase]

/-- Witness for C1 at a concrete stale state: the recorded directory is
missing from the filesystem. -/
theorem resolve_self_heals_stale_witness :
    isLive (fun _ => FsNode.missing) "/videos/abc" = false ∧
    ((resolve (fun _ => FsNode.missing)
        (mark_processed ⟨[], []⟩ "abc1234567890def" "/videos/abc")
        "abc1234567890def").2 = Resolution.NotProcessed ∧
      (resolve (fun _ => FsNode.missing)
        (mark_processed ⟨[], []⟩ "abc1234567890def" "/videos/abc")
        "abc1234567890def").1.data.lookup "abc1234567890def" = none ∧
      (resolve (fun _ => FsNode.missing)
        (mark_processed ⟨[], []⟩ "abc1234567890def" "/videos/abc")
        "abc1234567890def").1.disk.lookup "abc1234567890def" = none ∧
      is_processed (resolve (fun _ => FsNode.missing)
        (mark_processed ⟨[], []⟩ "abc1234567890def" "/videos/abc")
        "abc1234567890def").1 "abc1234567890def" = false) :=
  ⟨rfl, resolve_self_heals_stale ⟨[], []⟩ (fun _ => FsNode.missing)
    "abc1234567890def" "/videos/abc" rfl⟩

/-- C2: after mark_processed(f, p), if p is a directory holding at
least one artifact file, resolve(f) leaves the store unchanged and
returns Processed(p, count) with count the number of artifact files;
one file suffices, no expected total is consulted. -/
theorem cache_round_trip (db : ProcessedVideosDB) (fs : String → FsNode)
    (f p : String) (es : List String) (hfs : fs p = FsNode.dir es)
    (hn : 0 < (listMp4 es).length) :
    resolve fs (mark_processed db f p) f =
      (mark_processed db f p, Resolution.Processed p (listMp4 es).length) := by
  have hl : (mark_processed db f p).data.lookup f = some p := by
    simp [mark_processed, alSet_lookup_self]
  have hip : is_processed (mark_processed db f p) f = true := by
    simp [is_processed, hl]
  have hpe : pathExistsB fs p = true := by simp [pathExistsB, hfs]
  have hid : isDirB fs p = true := by simp [isDirB, hfs]
  have hld : listdir fs p = es := by simp [listdir, hfs]
  simp [resolve, hip, get_chunk_dir, hl, hpe, hid, hld, hn]

/-- Witness for C2 at a concrete live state: three artifact files, one
of which was deleted out of band, leaving two. -/
theorem cache_round_trip_witness :
    (fun q => if q = "/videos/abc" then FsNode.dir ["0.mp4", "2.mp4"]
      else FsNode.missing) "/videos/abc" = FsNode.dir ["0.mp4", "2.mp4"] ∧
    0 < (listMp4 ["0.mp4", "2.mp4"]).length ∧
    resolve (fun q => if q = "/videos/abc" then
        FsNode.dir ["0.mp4", "2.mp4"] else FsNode.missing)
      (mark_processed ⟨[], []⟩ "abc1234567890def" "/videos/abc")
      "abc1234567890def" =
      (mark_processed ⟨[], []⟩ "abc1234567890def" "/videos/abc",
        Resolution.Processed "/videos/abc"
          (listMp4 ["0.mp4", "2.mp4"]).length) :=
  ⟨by decide, by decide,
    cache_round_trip ⟨[], []⟩ _ "abc1234567890def" "/videos/abc"
      ["0.mp4", "2.mp4"] (by decide) (by decide)⟩
/-! ### Claim C8: fingerprint chunking equivalence -/

theorem chunkByFuel_flatten {α : Type} (k : Nat) :
    ∀ (fuel : Nat) (l : List α), l.length ≤ fuel →
      (chunkByFuel k fuel l).flatten = l := by
  intro fuel
  induction fuel with
  | zero =>
    intro l hl
    cases l with
    | nil => simp [chunkByFuel]
    | cons x xs => simp at hl
  | succ fuel ih =>
    intro l hl
    cases l with
    | nil => simp [chunkByFuel]
    | cons x xs =>
      rw [chunkByFuel, List.flatten_cons]
      have hlen : (xs.drop k).length ≤ fuel := by
        simp only [List.length_drop]
        simp only [List.length_cons] at hl
        omega
      rw [ih (xs.drop k) hlen]
      have hdrop : xs.drop k = (x :: xs).drop (k + 1) := by
        simp [List.drop_succ_cons]
      rw [hdrop, List.take_append_drop]

theorem chunkBy_flatten {α : Type} (k : Nat) (l : List α) :
    (chunkBy k l).flatten = l :=
  chunkByFuel_flatten k l.length l (Nat.le_refl _)

theorem foldl_update_eq_flatten (chunks : List (List Nat)) :
    ∀ acc : List Nat,
      chunks.foldl hashlibSha256Update acc = acc ++ chunks.flatten := by
  induction chunks with
  | nil => intro acc; simp
  | cons c t ih =>
    intro acc
    simp [List.foldl_cons, hashlibSha256Update, ih, List.flatten_cons]

/-- C8: streaming the file content in 4096-byte reads through SHA-256
and truncating the hex digest to 16 characters computes exactly the
first 16 hex characters of the SHA-256 digest of the whole content, so
byte-identical content yields the identical fingerprint regardless of
size or I/O chunking. -/
theorem fingerprint_chunking_equiv (content : List Nat) :
    calculate_video_hash content = specFingerprint content := by
  unfold calculate_video_hash specFingerprint hashlibSha256Hexdigest
  rw [foldl_update_eq_flatten, List.nil_append, chunkBy_flatten]

set_option maxRecDepth 100000 in
/-- Sanity vector: the model computes the standard SHA-256 digest of
the empty message. -/
theorem sha256hex_empty_vector :
    sha256hex [] =
      "e3b0c44298fc1c149afbf4c8996fb92427ae41e4649b934ca495991b7852b855" := by
  decide

set_option maxRecDepth 100000 in
/-- Sanity vector: the model computes the standard SHA-256 digest of
the three-byte message abc. -/
theorem sha256hex_abc_vector :
    sha256hex [0x61, 0x62, 0x63] =
      "ba7816bf8f01cfea414140de5dae2223b00361a396177a9cb410ff61f20015ad" := by
  decide

/-! ### Claim C7: write-failure resilience of insert -/

theorem ImageDatabase_save_data (writeOk : Bool) (s : ImageDatabaseState) :
    (ImageDatabase_save writeOk s).data = s.data := by
  cases writeOk <;> rfl

theorem lookup_map_jobj (nss : List (String × List (String × Json)))
    (c : String) :
    ((nss.map (fun p => (p.1, Json.jobj p.2))).lookup c) =
      (nss.lookup c).map Json.jobj := by
  induction nss with
  | nil => rfl
  | cons p t ih =>
    obtain ⟨a, b⟩ := p
    by_cases hac : c = a
    · subst hac
      simp [List.lookup]
    · have hne : (c == a) = false := by
        simp only [beq_eq_false_iff_ne, ne_eq]
        exact hac
      simp [List.lookup, hne, ih]

theorem any_key_eq_lookup_isSome {α : Type} (l : List (String × α))
    (c : String) :
    (l.any (fun p => p.1 == c)) = (l.lookup c).isSome := by
  induction l with
  | nil => rfl
  | cons p t ih =>
    obtain ⟨a, b⟩ := p
    by_cases hac : a = c
    · subst hac
      simp [List.lookup]
    · have h1 : (a == c) = false := by
        simp only [beq_eq_false_iff_ne, ne_eq]
        exact hac
      have h2 : (c == a) = false := by
        simp only [beq_eq_false_iff_ne, ne_eq]
        exact fun hh => hac hh.symm
      simp [List.lookup, h1, h2, ih]

/-- C7: insert updates the in-memory document and then attempts the
disk write; whether or not the write succeeds, no error escapes (the
operation is a total function), the in-memory state is updated, and a
get in the same session returns the new value; the disk document
changes only when the write succeeds. -/
theorem insert_write_failure_resilient (writeOk : Bool)
    (s : ImageDatabaseState) (category key : String)
    (value default : Json) :
    ImageDatabase_get
        (dbToJson (ImageDatabase_insert writeOk s category key value).data)
        category key default = Except.ok value ∧
    (ImageDatabase_insert writeOk s category key value).disk =
      (if writeOk
        then (ImageDatabase_insert writeOk s category key value).data
        else s.disk) := by
  constructor
  · have hdata : (ImageDatabase_insert writeOk s category key value).data =
        alSet s.data category
          (alSet ((s.data.lookup category).getD []) key value) := by
      simp [ImageDatabase_insert, ImageDatabase_save_data]
    rw [hdata]
    have hany : ((alSet s.data category
        (alSet ((s.data.lookup category).getD []) key value)).map
          (fun p => (p.1, Json.jobj p.2))).any (fun p => p.1 == category)
        = true := by
      rw [any_key_eq_lookup_isSome, lookup_map_jobj, alSet_lookup_self]
      rfl
    have hsub : ((alSet s.data category
        (alSet ((s.data.lookup category).getD []) key value)).map
          (fun p => (p.1, Json.jobj p.2))).lookup category =
        some (Json.jobj
          (alSet ((s.data.lookup category).getD []) key value)) := by
      rw [lookup_map_jobj, alSet_lookup_self]
      rfl
    simp [ImageDatabase_get, dbToJson, pyContains, hany, pySubscript, hsub,
      alSet_lookup_self]
  · cases writeOk with
    | false => simp [ImageDatabase_insert, ImageDatabase_save]
    | true => simp [ImageDatabase_insert, ImageDatabase_save]

/-! ### Claim C9: totality of get -/

/-- C9 counterexample: a backing file holding the valid JSON document
with namespace Batch Counters bound to the number 5 loads without
error, yet get on that namespace raises AttributeError (the namespace
value has no attribute get), so get is not total over all valid-JSON
states. -/
theorem get_scalar_namespace_errors :
    ImageDatabase_get (Json.jobj [("Batch Counters", Json.jnum 5)])
      "Batch Counters" "L" Json.jnull = Except.error "AttributeError" := by
  rfl

/-- C9 amended: on every well-formed document (each namespace value is
itself a JSON object — the only shape the store ever writes), get is
total: it returns the stored value when present and the default
otherwise, with no error outcome. -/
theorem get_total_on_wellformed (nss : List (String × Json))
    (category key : String) (default : Json)
    (hwf : wellFormedDoc nss = true) :
    ImageDatabase_get (Json.jobj nss) category key default =
      Except.ok (storedOrDefault nss category key default) := by
  induction nss with
  | nil => rfl
  | cons p t ih =>
    obtain ⟨c0, v0⟩ := p
    cases v0 with
    | jnull => simp [wellFormedDoc] at hwf
    | jbool b => simp [wellFormedDoc] at hwf
    | jnum n => simp [wellFormedDoc] at hwf
    | jstr s => simp [wellFormedDoc] at hwf
    | jarr es => simp [wellFormedDoc] at hwf
    | jobj kvs0 =>
    have hwft : wellFormedDoc t = true := by
      rw [wellFormedDoc, List.all_cons] at hwf
      rw [Bool.and_eq_true] at hwf
      exact hwf.2
    by_cases hc : c0 = category
    · subst hc
      simp [ImageDatabase_get, pyContains, List.any_cons, pySubscript,
        List.lookup, storedOrDefault]
    · have h1 : (c0 == category) = false := by
        simp only [beq_eq_false_iff_ne, ne_eq]
        exact hc
      have h2 : (category == c0) = false := by
        simp only [beq_eq_false_iff_ne, ne_eq]
        exact fun hh => hc hh.symm
      have ih2 := ih hwft
      simp only [ImageDatabase_get, pyContains, List.any_cons, h1,
        Bool.false_or, pySubscript, List.lookup, h2, storedOrDefault] at ih2 ⊢
      exact ih2

/-- Witness for the amended C9 at a concrete well-formed store. -/
theorem get_total_on_wellformed_witness :
    wellFormedDoc [("Batch Counters", Json.jobj [("L", Json.jnum 3)])] =
      true ∧
    ImageDatabase_get
        (Json.jobj [("Batch Counters", Json.jobj [("L", Json.jnum 3)])])
        "Batch Counters" "L" Json.jnull =
      Except.ok (storedOrDefault
        [("Batch Counters", Json.jobj [("L", Json.jnum 3)])]
        "Batch Counters" "L" Json.jnull) :=
  ⟨rfl, get_total_on_wellformed
    [("Batch Counters", Json.jobj [("L", Json.jnum 3)])]
    "Batch Counters" "L" Json.jnull rfl⟩

/-! ### Cursor lemmas shared by claims C3, C4, C5, C6 and C10 -/

theorem loaderInit_match (db : CursorStore) (dir label pat : String)
    (ps : List String)
    (hid : db.paths.lookup label = some dir ∧
      db.patterns.lookup label = some pat) :
    loaderInit db dir label pat ps =
      (db, ⟨ps, (db.counters.lookup label).getD 0, label⟩, []) := by
  simp only [loaderInit]
  rw [if_pos hid]

theorem loaderInit_reset (db : CursorStore) (dir label pat : String)
    (ps : List String)
    (hid : ¬(db.paths.lookup label = some dir ∧
      db.patterns.lookup label = some pat)) :
    loaderInit db dir label pat ps =
      ({ counters := alSet db.counters label 0,
         paths := alSet db.paths label dir,
         patterns := alSet db.patterns label pat },
       ⟨ps, 0, label⟩,
       [{ db with counters := alSet db.counters label 0 },
        { counters := alSet db.counters label 0,
          paths := alSet db.paths label dir,
          patterns := db.patterns },
        { counters := alSet db.counters label 0,
          paths := alSet db.paths label dir,
          patterns := alSet db.patterns label pat }]) := by
  simp only [loaderInit]
  rw [if_neg hid]

theorem getNextImage_some (db : CursorStore) (ps : List String) (idx : Nat)
    (label : String) (h : ps ≠ []) :
    getNextImage db ⟨ps, idx, label⟩ =
      some ({ db with counters := (alSet db.counters label
                (if ps.length ≤ (if ps.length ≤ idx then 0 else idx) + 1
                 then 0 else (if ps.length ≤ idx then 0 else idx) + 1)) },
            ⟨ps, (if ps.length ≤ (if ps.length ≤ idx then 0 else idx) + 1
                  then 0 else (if ps.length ≤ idx then 0 else idx) + 1),
              label⟩,
            ps.getD (if ps.length ≤ idx then 0 else idx) "",
            basename (ps.getD (if ps.length ≤ idx then 0 else idx) "")) := by
  have hn : 0 < ps.length := List.length_pos.mpr h
  have hi0 : (if ps.length ≤ idx then 0 else idx) < ps.length := by
    split <;> omega
  simp only [getNextImage]
  rw [List.get?_eq_get hi0]
  simp [List.getD_eq_getElem?_getD, List.getElem?_eq_getElem hi0]

theorem bump_eq_mod (n i : Nat) (hi : i < n) :
    (if n ≤ i + 1 then 0 else i + 1) = (i + 1) % n := by
  split_ifs with hle
  · have hin : i + 1 = n := by omega
    rw [hin, Nat.mod_self]
  · rw [Nat.mod_eq_of_lt (by omega)]

theorem served_current (n i : Nat) (hi : i < n) :
    (if (if n ≤ i + 1 then 0 else i + 1) = 0 then n - 1
      else (if n ≤ i + 1 then 0 else i + 1) - 1) = i := by
  by_cases hb : n ≤ i + 1
  · rw [if_pos hb]
    simp only [if_pos]
    omega
  · rw [if_neg hb]
    have hz : ¬ i + 1 = 0 := by omega
    rw [if_neg hz]
    omega

theorem callOnce_spec (db : CursorStore) (label dir pat : String)
    (ps : List String) (h : ps ≠ []) :
    (callOnce db label dir pat ps).2 =
      some (startIndex db label dir pat ps.length) ∧
    (callOnce db label dir pat ps).1.paths.lookup label = some dir ∧
    (callOnce db label dir pat ps).1.patterns.lookup label = some pat ∧
    (callOnce db label dir pat ps).1.counters.lookup label =
      some ((startIndex db label dir pat ps.length + 1) % ps.length) := by
  have hn : 0 < ps.length := List.length_pos.mpr h
  have hlen0 : ¬ ps.length = 0 := by omega
  by_cases hid : db.paths.lookup label = some dir ∧
      db.patterns.lookup label = some pat
  · -- identity matches: the stored counter is loaded
    set c0 := (db.counters.lookup label).getD 0 with hc0def
    have hi0 : (if ps.length ≤ c0 then 0 else c0) < ps.length := by
      split <;> omega
    have hstart : startIndex db label dir pat ps.length =
        (if ps.length ≤ c0 then 0 else c0) := by
      simp only [startIndex]
      rw [if_pos hid]
    have hexec : LoadImageBatch_execute true ps db dir pat label =
        ({ db with counters := (alSet db.counters label
            (if ps.length ≤ (if ps.length ≤ c0 then 0 else c0) + 1
             then 0 else (if ps.length ≤ c0 then 0 else c0) + 1)) },
         Except.ok
           (ps.getD (if ps.length ≤ c0 then 0 else c0) "",
            basename (ps.getD (if ps.length ≤ c0 then 0 else c0) ""),
            (if (if ps.length ≤ (if ps.length ≤ c0 then 0 else c0) + 1
                  then 0 else (if ps.length ≤ c0 then 0 else c0) + 1) = 0
              then ps.length - 1
              else (if ps.length ≤ (if ps.length ≤ c0 then 0 else c0) + 1
                    then 0
                    else (if ps.length ≤ c0 then 0 else c0) + 1) - 1),
            ps.length)) := by
      simp only [LoadImageBatch_execute]
      rw [loaderInit_match db dir label pat ps hid]
      dsimp only
      rw [if_neg hlen0, getNextImage_some db ps c0 label h]
      simp
    refine ⟨?_, ?_, ?_, ?_⟩
    · simp only [callOnce, hexec]
      rw [hstart]
      exact congrArg some (served_current ps.length _ hi0)
    · simp only [callOnce, hexec]
      exact hid.1
    · simp only [callOnce, hexec]
      exact hid.2
    · simp only [callOnce, hexec]
      rw [alSet_lookup_self, hstart]
      exact congrArg some (bump_eq_mod ps.length _ hi0)
  · -- identity differs: reset to 0
    have hstart : startIndex db label dir pat ps.length = 0 := by
      simp only [startIndex]
      rw [if_neg hid]
    have hi0 : (if ps.length ≤ 0 then 0 else 0) < ps.length := by
      split <;> omega
    have hexec : LoadImageBatch_execute true ps db dir pat label =
        ({ counters := (alSet (alSet db.counters label 0) label
            (if ps.length ≤ (if ps.length ≤ 0 then 0 else 0) + 1
             then 0 else (if ps.length ≤ 0 then 0 else 0) + 1)),
           paths := alSet db.paths label dir,
           patterns := alSet db.patterns label pat },
         Except.ok
           (ps.getD (if ps.length ≤ 0 then 0 else 0) "",
            basename (ps.getD (if ps.length ≤ 0 then 0 else 0) ""),
            (if (if ps.length ≤ (if ps.length ≤ 0 then 0 else 0) + 1
                  then 0 else (if ps.length ≤ 0 then 0 else 0) + 1) = 0
              then ps.length - 1
              else (if ps.length ≤ (if ps.length ≤ 0 then 0 else 0) + 1
                    then 0
                    else (if ps.length ≤ 0 then 0 else 0) + 1) - 1),
            ps.length)) := by
      simp only [LoadImageBatch_execute]
      rw [loaderInit_reset db dir label pat ps hid]
      dsimp only
      rw [if_neg hlen0, getNextImage_some _ ps 0 label h]
      simp
    refine ⟨?_, ?_, ?_, ?_⟩
    · simp only [callOnce, hexec]
      rw [hstart]
      rw [served_current ps.length _ hi0]
      simp
    · simp only [callOnce, hexec]
      exact alSet_lookup_self _ _ _
    · simp only [callOnce, hexec]
      exact alSet_lookup_self _ _ _
    · simp only [callOnce, hexec]
      rw [alSet_lookup_self, hstart]
      rw [bump_eq_mod ps.length _ hi0]
      simp

theorem startIndex_lt (db : CursorStore) (label dir pat : String) (n : Nat)
    (hn : 0 < n) : startIndex db label dir pat n < n := by
  simp only [startIndex]
  split_ifs <;> omega

theorem callTrace_rotation (label dir pat : String) (ps : List String)
    (h : ps ≠ []) :
    ∀ (k : Nat) (db : CursorStore),
      callTrace db label dir pat ps k = (List.range k).map
        (fun j => some ((startIndex db label dir pat ps.length + j) %
          ps.length)) := by
  have hn : 0 < ps.length := List.length_pos.mpr h
  intro k
  induction k with
  | zero => intro db; simp [callTrace]
  | succ k ih =>
    intro db
    obtain ⟨h1, h2, h3, h4⟩ := callOnce_spec db label dir pat ps h
    rw [callTrace, h1, ih]
    have hslt : startIndex db label dir pat ps.length < ps.length :=
      startIndex_lt db label dir pat ps.length hn
    have hmlt : (startIndex db label dir pat ps.length + 1) % ps.length <
        ps.length := Nat.mod_lt _ hn
    have hs2 : startIndex (callOnce db label dir pat ps).1 label dir pat
        ps.length =
        (startIndex db label dir pat ps.length + 1) % ps.length := by
      conv_lhs => simp only [startIndex]
      rw [if_pos ⟨h2, h3⟩, h4]
      simp only [Option.getD_some]
      rw [if_neg (by omega)]
    rw [hs2, List.range_succ_eq_map, List.map_cons, List.map_map]
    have hhead : (startIndex db label dir pat ps.length + 0) % ps.length =
        startIndex db label dir pat ps.length := by
      rw [Nat.add_zero, Nat.mod_eq_of_lt hslt]
    rw [hhead]
    refine congrArg (fun t => _ :: t) ?_
    refine List.map_congr_left ?_
    intro j hj
    simp only [Function.comp]
    rw [Nat.mod_add_mod]
    exact congrArg (fun t => some (t % ps.length)) (by omega)

/-! ### Claims C3, C4, C5, C6, C10: the durable cursor -/

/-- C3: with a fixed identity, starting from the beginning of the
cycle, a sequence of length N at least 1 yields indices 0 .. N-1 over N
consecutive calls and 0 again on call N+1; moreover a stored position
at or past N is wrapped to 0 before being served. -/
theorem cursor_cyclic_coverage (db : CursorStore) (label dir pat : String)
    (ps : List String) (hne : ps ≠ [])
    (hs : startIndex db label dir pat ps.length = 0) :
    callTrace db label dir pat ps (ps.length + 1) =
      (List.range ps.length).map some ++ [some 0] ∧
    (ps.length ≤ (db.counters.lookup label).getD 0 →
      db.paths.lookup label = some dir →
      db.patterns.lookup label = some pat →
      (callOnce db label dir pat ps).2 = some 0) := by
  have hn : 0 < ps.length := List.length_pos.mpr hne
  constructor
  · rw [callTrace_rotation label dir pat ps hne (ps.length + 1) db, hs]
    have h1 : (List.range ps.length).map
        (fun j => some ((0 + j) % ps.length)) =
        (List.range ps.length).map some := by
      refine List.map_congr_left ?_
      intro j hj
      rw [List.mem_range] at hj
      rw [Nat.zero_add, Nat.mod_eq_of_lt hj]
    rw [List.range_succ, List.map_append, h1]
    simp [Nat.mod_self]
  · intro hcl hp hpat
    obtain ⟨h1, _, _, _⟩ := callOnce_spec db label dir pat ps hne
    rw [h1, hs]

/-- Witness for C3 at a concrete state: three files, matching identity,
stored counter 5 out of range, so the first call wraps and serves 0,
and six calls serve 0, 1, 2 then 0 again. -/
theorem cursor_cyclic_coverage_witness :
    (["a", "b", "c"] : List String) ≠ [] ∧
    startIndex ⟨[("L", 5)], [("L", "/img")], [("L", "*")]⟩ "L" "/img" "*"
      (["a", "b", "c"] : List String).length = 0 ∧
    (callTrace ⟨[("L", 5)], [("L", "/img")], [("L", "*")]⟩ "L" "/img" "*"
        ["a", "b", "c"] ((["a", "b", "c"] : List String).length + 1) =
      (List.range (["a", "b", "c"] : List String).length).map some ++
        [some 0] ∧
    ((["a", "b", "c"] : List String).length ≤
        ((⟨[("L", 5)], [("L", "/img")], [("L", "*")]⟩ :
          CursorStore).counters.lookup "L").getD 0 →
      (⟨[("L", 5)], [("L", "/img")], [("L", "*")]⟩ :
        CursorStore).paths.lookup "L" = some "/img" →
      (⟨[("L", 5)], [("L", "/img")], [("L", "*")]⟩ :
        CursorStore).patterns.lookup "L" = some "*" →
      (callOnce ⟨[("L", 5)], [("L", "/img")], [("L", "*")]⟩ "L" "/img" "*"
        ["a", "b", "c"]).2 = some 0)) :=
  ⟨by decide, by decide,
    cursor_cyclic_coverage ⟨[("L", 5)], [("L", "/img")], [("L", "*")]⟩
      "L" "/img" "*" ["a", "b", "c"] (by decide) (by decide)⟩

/-- C4: a call whose source path or pattern differs from the stored
identity serves index 0, records the new identity with the advanced
counter (discarding the stored position), and k consecutive calls with
the new identity serve 0, 1, 2, ... cyclically. -/
theorem identity_change_reset (db : CursorStore) (label dir pat : String)
    (ps : List String) (k : Nat) (hne : ps ≠ [])
    (hdiff : ¬(db.paths.lookup label = some dir ∧
      db.patterns.lookup label = some pat)) :
    callTrace db label dir pat ps k =
      (List.range k).map (fun j => some (j % ps.length)) ∧
    (callOnce db label dir pat ps).2 = some 0 ∧
    (callOnce db label dir pat ps).1.paths.lookup label = some dir ∧
    (callOnce db label dir pat ps).1.patterns.lookup label = some pat ∧
    (callOnce db label dir pat ps).1.counters.lookup label =
      some (1 % ps.length) := by
  have hs : startIndex db label dir pat ps.length = 0 := by
    simp only [startIndex]
    rw [if_neg hdiff]
  obtain ⟨h1, h2, h3, h4⟩ := callOnce_spec db label dir pat ps hne
  refine ⟨?_, ?_, h2, h3, ?_⟩
  · rw [callTrace_rotation label dir pat ps hne k db, hs]
    simp
  · rw [h1, hs]
  · rw [h4, hs]

/-- Witness for C4 at a concrete state: stored identity A with position
1, call with path B; five calls over three files serve 0, 1, 2, 0, 1. -/
theorem identity_change_reset_witness :
    (["a", "b", "c"] : List String) ≠ [] ∧
    ¬((⟨[("L", 1)], [("L", "A")], [("L", "*")]⟩ :
        CursorStore).paths.lookup "L" = some "B" ∧
      (⟨[("L", 1)], [("L", "A")], [("L", "*")]⟩ :
        CursorStore).patterns.lookup "L" = some "*") ∧
    (callTrace ⟨[("L", 1)], [("L", "A")], [("L", "*")]⟩ "L" "B" "*"
        ["a", "b", "c"] 5 =
      (List.range 5).map
        (fun j => some (j % (["a", "b", "c"] : List String).length)) ∧
    (callOnce ⟨[("L", 1)], [("L", "A")], [("L", "*")]⟩ "L" "B" "*"
        ["a", "b", "c"]).2 = some 0 ∧
    (callOnce ⟨[("L", 1)], [("L", "A")], [("L", "*")]⟩ "L" "B" "*"
        ["a", "b", "c"]).1.paths.lookup "L" = some "B" ∧
    (callOnce ⟨[("L", 1)], [("L", "A")], [("L", "*")]⟩ "L" "B" "*"
        ["a", "b", "c"]).1.patterns.lookup "L" = some "*" ∧
    (callOnce ⟨[("L", 1)], [("L", "A")], [("L", "*")]⟩ "L" "B" "*"
        ["a", "b", "c"]).1.counters.lookup "L" =
      some (1 % (["a", "b", "c"] : List String).length)) :=
  ⟨by decide, by decide,
    identity_change_reset ⟨[("L", 1)], [("L", "A")], [("L", "*")]⟩
      "L" "B" "*" ["a", "b", "c"] 5 (by decide) (by decide)⟩

/-- C5 counterexample: starting from stored position 1 under identity A
and calling with path B, the first persisted update produced by the
reset already holds position 0 together with the old identity A, so the
reset is not one single persisted update and the persisted store does
transiently pair the reset position with the old identity. -/
theorem identity_reset_not_single_update :
    (⟨[("L", 1)], [("L", "A")], [("L", "*")]⟩ :
      CursorStore).counters.lookup "L" = some 1 ∧
    (loaderInit ⟨[("L", 1)], [("L", "A")], [("L", "*")]⟩ "B" "L" "*"
        ["x"]).2.2.head? =
      some ⟨[("L", 0)], [("L", "A")], [("L", "*")]⟩ ∧
    ("A" : String) ≠ "B" := by
  refine ⟨rfl, ?_, by decide⟩
  rfl

/-- C5 amended: the identity reset is persisted in three successive
updates, position first; every persisted snapshot carries position 0
for the label, so no persisted state pairs the new identity with a
stale position, but the first snapshot still carries the old identity;
the final snapshot is the resulting store with the new identity and
position 0. -/
theorem identity_reset_position_zero_throughout (db : CursorStore)
    (label dir pat : String) (ps : List String)
    (hdiff : ¬(db.paths.lookup label = some dir ∧
      db.patterns.lookup label = some pat)) :
    (loaderInit db dir label pat ps).2.2.length = 3 ∧
    (loaderInit db dir label pat ps).2.2.map
      (fun s => s.counters.lookup label) = [some 0, some 0, some 0] ∧
    (loaderInit db dir label pat ps).2.2.head? =
      some { db with counters := alSet db.counters label 0 } ∧
    (loaderInit db dir label pat ps).2.2.getLast? =
      some (loaderInit db dir label pat ps).1 ∧
    (loaderInit db dir label pat ps).1.paths.lookup label = some dir ∧
    (loaderInit db dir label pat ps).1.patterns.lookup label = some pat ∧
    (loaderInit db dir label pat ps).1.counters.lookup label = some 0 := by
  rw [loaderInit_reset db dir label pat ps hdiff]
  refine ⟨rfl, ?_, rfl, rfl, ?_, ?_, ?_⟩
  · simp [alSet_lookup_self]
  · exact alSet_lookup_self _ _ _
  · exact alSet_lookup_self _ _ _
  · exact alSet_lookup_self _ _ _

/-- Witness for the amended C5 at a concrete state. -/
theorem identity_reset_position_zero_throughout_witness :
    ¬((⟨[("L", 1)], [("L", "A")], [("L", "*")]⟩ :
        CursorStore).paths.lookup "L" = some "B" ∧
      (⟨[("L", 1)], [("L", "A")], [("L", "*")]⟩ :
        CursorStore).patterns.lookup "L" = some "*") ∧
    ((loaderInit ⟨[("L", 1)], [("L", "A")], [("L", "*")]⟩ "B" "L" "*"
        ["x"]).2.2.length = 3 ∧
    (loaderInit ⟨[("L", 1)], [("L", "A")], [("L", "*")]⟩ "B" "L" "*"
        ["x"]).2.2.map (fun s => s.counters.lookup "L") =
      [some 0, some 0, some 0] ∧
    (loaderInit ⟨[("L", 1)], [("L", "A")], [("L", "*")]⟩ "B" "L" "*"
        ["x"]).2.2.head? =
      some { (⟨[("L", 1)], [("L", "A")], [("L", "*")]⟩ : CursorStore) with
        counters := alSet (⟨[("L", 1)], [("L", "A")], [("L", "*")]⟩ :
          CursorStore).counters "L" 0 } ∧
    (loaderInit ⟨[("L", 1)], [("L", "A")], [("L", "*")]⟩ "B" "L" "*"
        ["x"]).2.2.getLast? =
      some (loaderInit ⟨[("L", 1)], [("L", "A")], [("L", "*")]⟩ "B" "L" "*"
        ["x"]).1 ∧
    (loaderInit ⟨[("L", 1)], [("L", "A")], [("L", "*")]⟩ "B" "L" "*"
        ["x"]).1.paths.lookup "L" = some "B" ∧
    (loaderInit ⟨[("L", 1)], [("L", "A")], [("L", "*")]⟩ "B" "L" "*"
        ["x"]).1.patterns.lookup "L" = some "*" ∧
    (loaderInit ⟨[("L", 1)], [("L", "A")], [("L", "*")]⟩ "B" "L" "*"
        ["x"]).1.counters.lookup "L" = some 0) :=
  ⟨by decide,
    identity_reset_position_zero_throughout
      ⟨[("L", 1)], [("L", "A")], [("L", "*")]⟩ "L" "B" "*" ["x"]
      (by decide)⟩

/-- C6: when no file matches (the scanned sequence is empty), the node
invocation surfaces an error to the caller instead of serving an
index. -/
theorem empty_sequence_errors (db : CursorStore)
    (path pattern label : String) :
    (LoadImageBatch_execute true [] db path pattern label).2 =
      Except.error
        ("No images found in " ++ path ++ " with pattern " ++ pattern) := by
  by_cases hid : db.paths.lookup label = some path ∧
      db.patterns.lookup label = some pattern
  · simp only [LoadImageBatch_execute]
    rw [loaderInit_match db path label pattern [] hid]
    simp
  · simp only [LoadImageBatch_execute]
    rw [loaderInit_reset db path label pattern [] hid]
    simp

/-- C10: when the identity differs and the scanned sequence is empty,
the call errors, yet the store visible after the call (persisted by the
three inserts of the reset, which run before the emptiness check)
already carries the new identity with position 0, overwriting the
previously stored cursor state. -/
theorem reset_persisted_before_empty_check (db : CursorStore)
    (label dir pat : String)
    (hdiff : ¬(db.paths.lookup label = some dir ∧
      db.patterns.lookup label = some pat)) :
    (LoadImageBatch_execute true [] db dir pat label).2 =
      Except.error
        ("No images found in " ++ dir ++ " with pattern " ++ pat) ∧
    (LoadImageBatch_execute true [] db dir pat label).1.counters.lookup
      label = some 0 ∧
    (LoadImageBatch_execute true [] db dir pat label).1.paths.lookup
      label = some dir ∧
    (LoadImageBatch_execute true [] db dir pat label).1.patterns.lookup
      label = some pat := by
  have hexec : LoadImageBatch_execute true [] db dir pat label =
      (({ counters := alSet db.counters label 0,
          paths := alSet db.paths label dir,
          patterns := alSet db.patterns label pat } : CursorStore),
       Except.error
         ("No images found in " ++ dir ++ " with pattern " ++ pat)) := by
    simp only [LoadImageBatch_execute]
    rw [loaderInit_reset db dir label pat [] hdiff]
    simp
  rw [hexec]
  exact ⟨rfl, alSet_lookup_self _ _ _, alSet_lookup_self _ _ _,
    alSet_lookup_self _ _ _⟩

/-- Witness for C10 at a concrete state: stored identity A with
position 1 is overwritten even though the call errors. -/
theorem reset_persisted_before_empty_check_witness :
    ¬((⟨[("L", 1)], [("L", "A")], [("L", "*")]⟩ :
        CursorStore).paths.lookup "L" = some "B" ∧
      (⟨[("L", 1)], [("L", "A")], [("L", "*")]⟩ :
        CursorStore).patterns.lookup "L" = some "*.png") ∧
    ((LoadImageBatch_execute true [] ⟨[("L", 1)], [("L", "A")], [("L", "*")]⟩
        "B" "*.png" "L").2 =
      Except.error ("No images found in " ++ "B" ++ " with pattern " ++
        "*.png") ∧
    (LoadImageBatch_execute true [] ⟨[("L", 1)], [("L", "A")], [("L", "*")]⟩
        "B" "*.png" "L").1.counters.lookup "L" = some 0 ∧
    (LoadImageBatch_execute true [] ⟨[("L", 1)], [("L", "A")], [("L", "*")]⟩
        "B" "*.png" "L").1.paths.lookup "L" = some "B" ∧
    (LoadImageBatch_execute true [] ⟨[("L", 1)], [("L", "A")], [("L", "*")]⟩
        "B" "*.png" "L").1.patterns.lookup "L" = some "*.png") :=
  ⟨by decide,
    reset_persisted_before_empty_check
      ⟨[("L", 1)], [("L", "A")], [("L", "*")]⟩ "L" "B" "*.png"
      (by decide)⟩
